import Mathlib

/-!
Verification of the 200millas backend order-fulfillment workflow.

This file gives a shallow embedding of the Python handlers that implement the
order state machine, the workflow ledger, the assignment queue processor, the
task-token wait/resume coordinator and order creation, and proves or refutes
the specification claims about them.

Modelling conventions:
* DynamoDB records are Lean structures; a table slot holding at most the one
  record a handler touches is an `Option`.  `get_item` is the `Option` value,
  `put_item` replaces it, `update_item` updates fields of the existing record
  (for the orders/workflow tables the handlers only ever `update_item` records
  that exist in the scenarios the claims quantify over, so we model
  `update_item` on the order slot as `Option.map`).
* Monetary values (`Decimal` in the source) are `Rat`: Python `Decimal`
  arithmetic on the catalogue-sized values involved is exact rational
  arithmetic.
* Timestamps are `Nat` (the source uses integer epoch seconds).
* Handler string inputs are taken after the source's `.strip()`/`.lower()`
  normalisation, which is pure data cleaning on the wire format.
* The Step Functions `send_task_success` call can fail (e.g. on a stale
  token); we model the external orchestrator by a predicate
  `resume_ok : String → Bool` saying which tokens it accepts, and record in
  `OpResult.resumed` the tokens for which the resume primitive succeeded.
* Python exceptions caught by the `@error_handler` decorator become `Outcome.err`;
  writes already issued before an exception stay in the returned state, exactly
  as the sequential `boto3` calls leave the tables.
-/

namespace Millas

/-- One workflow-ledger step: `{status, assigned_to, started_at, completed_at, notes}`. -/
structure Step where
  status : String
  assigned_to : String
  started_at : Nat
  completed_at : Option Nat
  notes : Option String
  deriving Repr, DecidableEq

/-- The per-order workflow ledger record (WORKFLOW_TABLE), including the
task-token wait fields used by the pause/resume coordinator. -/
structure Workflow where
  order_id : String
  current_status : String
  steps : List Step
  updated_at : Nat
  confirmation_task_token : Option String
  confirmation_wait_started_at : Option Nat
  cooking_task_token : Option String
  cooking_wait_started_at : Option Nat
  packing_task_token : Option String
  packing_wait_started_at : Option Nat
  deriving Repr, DecidableEq

/-- One order line item (quantity and price are `Decimal` in the source). -/
structure OrderItem where
  item_id : String
  name : String
  quantity : Rat
  price : Rat
  deriving Repr, DecidableEq

/-- The order record (ORDERS_TABLE). -/
structure Order where
  order_id : String
  tenant_id : String
  customer_id : String
  customer_email : String
  items : List OrderItem
  total : Rat
  delivery_address : String
  delivery_instructions : String
  status : String
  assigned_chef : Option String
  assigned_driver : Option String
  created_at : Nat
  updated_at : Nat
  updated_by : Option String
  assigned_at : Option Nat
  pickup_time : Option Nat
  ready_at : Option Nat
  packed_at : Option Nat
  delivered_at : Option Nat
  delivery_notes : Option String
  cancellation_reason : Option String
  deriving Repr, DecidableEq

/-- A staff availability record (STAFF_AVAILABILITY_TABLE).  The source calls
the monotone completion counter `orders_completed` and the freshness stamp
`updated_at` (the spec's `completed_count` and `last_updated`). -/
structure StaffRec where
  staff_id : String
  staff_type : String
  status : String
  tenant_id : String
  email : Option String
  current_order_id : Option String
  orders_completed : Nat
  updated_at : Nat
  assigned_at : Option Nat
  deriving Repr, DecidableEq

/-- The error taxonomy of `shared/errors.py` plus `internal` for uncaught
exceptions turned into a 500 by the `@error_handler` decorator.  Note the
source defines no `InvalidTransition` error kind at all. -/
inductive Err where
  | validation : String → Err
  | notFound : String → Err
  | unauthorized : String → Err
  | internal : String → Err
  deriving Repr, DecidableEq

/-- A handler outcome: success (carrying the response's status field) or an error. -/
inductive Outcome where
  | ok : String → Outcome
  | err : Err → Outcome
  deriving Repr, DecidableEq

/-- The database state a handler leaves behind, together with the outcome and
the list of task tokens for which the orchestrator's resume primitive was
invoked successfully. -/
structure OpResult where
  order : Option Order
  wf : Option Workflow
  staff : List StaffRec
  resumed : List String
  outcome : Outcome
  deriving Repr, DecidableEq

/-- The fixed status list shared by `orders/handler.py` and `workflow/handler.py`. -/
def valid_statuses : List String :=
  ["pending", "confirmed", "cooking", "packing", "ready", "in_delivery", "delivered"]

/-- Apply `f` to the last element of a list (Python's `steps[-1]` mutation). -/
def mapLast (f : Step → Step) : List Step → List Step
  | [] => []
  | [s] => [f s]
  | a :: b :: rest => a :: mapLast f (b :: rest)

/-- Close a step if it is still open (`if not last_step.get('completed_at')`). -/
def closeOpen (ts : Nat) (s : Step) : Step :=
  if s.completed_at = none then { s with completed_at := some ts } else s

/-- Embeds `update_order_status` (services/orders/handler.py, lines 400-491):
the manual status update for chef/staff/admin.  It validates the target only
against `valid_statuses`; there is no transition table.  On success it sets
`Order.status`, closes the ledger's open last step at `ts` and appends a new
open step. -/
def update_order_status (user_type user_id new_status notes : String)
    (order : Option Order) (wf : Option Workflow) (staff : List StaffRec)
    (ts : Nat) : OpResult :=
  if user_type ∉ (["chef", "staff", "admin"] : List String) then
    ⟨order, wf, staff, [],
      .err (.unauthorized "Solo chef, staff y admin pueden actualizar estados de pedidos")⟩
  else if new_status = "" then
    ⟨order, wf, staff, [], .err (.validation "status es requerido")⟩
  else if new_status ∉ valid_statuses then
    ⟨order, wf, staff, [], .err (.validation "Estado invalido")⟩
  else
    match order with
    | none => ⟨order, wf, staff, [], .err (.notFound "Pedido no encontrado")⟩
    | some o =>
      let o' := { o with status := new_status, updated_at := ts, updated_by := some user_id }
      let wf' := wf.map (fun w =>
        let step : Step :=
          { status := new_status, assigned_to := user_id, started_at := ts,
            completed_at := none,
            notes := some (if notes = "" then "Actualizado manualmente" else notes) }
        { w with steps := mapLast (closeOpen ts) w.steps ++ [step],
                 current_status := new_status, updated_at := ts })
      ⟨some o', wf', staff, [], .ok new_status⟩

/-- Embeds `update_workflow` (services/workflow/handler.py, lines 17-85).
Note: it appends a new open step WITHOUT closing the previous one, creates the
workflow if missing, then mirrors the status onto the order record. -/
def update_workflow (order_id new_status assigned_to : String)
    (order : Option Order) (wf : Option Workflow) (staff : List StaffRec)
    (ts : Nat) : OpResult :=
  if new_status = "" then
    ⟨order, wf, staff, [], .err (.validation "status es requerido")⟩
  else if new_status ∉ valid_statuses then
    ⟨order, wf, staff, [], .err (.validation "Status invalido")⟩
  else
    let w0 : Workflow :=
      match wf with
      | some w => w
      | none =>
        { order_id := order_id, current_status := "", steps := [], updated_at := 0,
          confirmation_task_token := none, confirmation_wait_started_at := none,
          cooking_task_token := none, cooking_wait_started_at := none,
          packing_task_token := none, packing_wait_started_at := none }
    let step : Step :=
      { status := new_status,
        assigned_to := if assigned_to = "" then "system" else assigned_to,
        started_at := ts, completed_at := none, notes := none }
    let w' := { w0 with steps := w0.steps ++ [step],
                        current_status := new_status, updated_at := ts }
    let order' := order.map (fun o => { o with status := new_status, updated_at := ts })
    ⟨order', some w', staff, [], .ok new_status⟩

/-- Ordering used by the queue processor: fewest completed orders first. -/
def byCompleted (a b : StaffRec) : Prop :=
  a.orders_completed ≤ b.orders_completed

instance : DecidableRel byCompleted :=
  fun a b => Nat.decLe a.orders_completed b.orders_completed

instance : IsTotal StaffRec byCompleted :=
  ⟨fun a b => Nat.le_total a.orders_completed b.orders_completed⟩

instance : IsTrans StaffRec byCompleted :=
  ⟨fun _ _ _ => Nat.le_trans⟩

/-- Embeds `_find_available_chef` (services/queue/chef_processor.py, lines
155-189): query all records with `staff_type == 'chef'`, keep the available
ones of the tenant, sort by `orders_completed` (Python's `list.sort` is a
stable sort, as is insertion sort) and take the first. -/
def find_available_chef (staff : List StaffRec) (tenant_id : String) : Option StaffRec :=
  match List.insertionSort byCompleted
      ((staff.filter (fun c => c.staff_type == "chef")).filter
        (fun c => c.status == "available" && c.tenant_id == tenant_id)) with
  | [] => none
  | c :: _ => some c

/-- Embeds the per-record body of `process_chef_assignments`
(services/queue/chef_processor.py, lines 45-147): find a chef, set the order
to `cooking` with `assigned_chef`, close the ledger's last step only if it is
an open `confirmed` step, append an open `cooking` step, and mark the chef
busy with `current_order_id`.  No available chef raises, which sends the
message back to the queue for retry. -/
def process_chef_assignment (order_id tenant_id : String)
    (order : Option Order) (wf : Option Workflow) (staff : List StaffRec)
    (ts : Nat) : OpResult :=
  match find_available_chef staff tenant_id with
  | none => ⟨order, wf, staff, [], .err (.internal "No available chefs - message will retry")⟩
  | some chef =>
    let chef_email := chef.email.getD chef.staff_id
    let order' := order.map (fun o =>
      { o with status := "cooking", assigned_chef := some chef_email,
               assigned_at := some ts, updated_at := ts })
    let wf' := wf.map (fun w =>
      let step : Step :=
        { status := "cooking", assigned_to := chef_email, started_at := ts,
          completed_at := none, notes := some "Asignado automaticamente desde cola SQS" }
      { w with
          steps := mapLast (fun s =>
            if s.status = "confirmed" ∧ s.completed_at = none
            then { s with completed_at := some ts } else s) w.steps ++ [step],
          current_status := "cooking", updated_at := ts })
    let staff' := staff.map (fun r =>
      if r.staff_id = chef.staff_id then
        { r with status := "busy", current_order_id := some order_id,
                 assigned_at := some ts, updated_at := ts }
      else r)
    ⟨order', wf', staff', [], .ok "cooking"⟩

/-- Embeds the Step Functions step `complete_cooking`
(services/workflow/step_functions_handlers.py, lines 138-199): set the order
to `packing`, close the last ledger step if it is a `cooking` step
(unconditionally overwriting `completed_at`) and append an open `packing`
step assigned to the order's chef. -/
def sf_complete_cooking (order : Option Order) (wf : Option Workflow)
    (staff : List StaffRec) (ts : Nat) : OpResult :=
  let assigned_chef := (order.map Order.assigned_chef).join
  let order' := order.map (fun o => { o with status := "packing", updated_at := ts })
  let wf' := wf.map (fun w =>
    let step : Step :=
      { status := "packing", assigned_to := assigned_chef.getD "system",
        started_at := ts, completed_at := none,
        notes := some "Coccion completada, empaquetando" }
    { w with
        steps := mapLast (fun s =>
          if s.status = "cooking" then { s with completed_at := some ts } else s) w.steps
          ++ [step],
        current_status := "packing", updated_at := ts })
  ⟨order', wf', staff, [], .ok "packing"⟩

/-- Embeds `complete_cooking` (services/chef/handler.py, lines 166-294): the
chef marks cooking done.  After updating the order and the ledger it looks up
`cooking_task_token`; if present it invokes the orchestration's resume
primitive, and only on resume success clears the token fields.  A failing
resume is caught and logged; an absent token is logged; neither fails the
request. -/
def chef_complete_cooking (user_type chef_ident notes : String)
    (order : Option Order) (wf : Option Workflow) (staff : List StaffRec)
    (resume_ok : String → Bool) (ts : Nat) : OpResult :=
  if user_type ∉ (["chef", "staff", "admin"] : List String) then
    ⟨order, wf, staff, [], .err (.unauthorized "Solo chefs pueden completar coccion")⟩
  else
    match order with
    | none => ⟨order, wf, staff, [], .err (.notFound "Pedido no encontrado")⟩
    | some o =>
      if o.assigned_chef ≠ some chef_ident then
        ⟨order, wf, staff, [], .err (.unauthorized "Este pedido no esta asignado a ti")⟩
      else if o.status ≠ "cooking" then
        ⟨order, wf, staff, [], .err (.validation "El pedido debe estar en estado cooking")⟩
      else
        let o' := { o with status := "packing", updated_at := ts,
                           updated_by := some chef_ident }
        let w1 := wf.map (fun w =>
          let step : Step :=
            { status := "packing", assigned_to := chef_ident, started_at := ts,
              completed_at := none,
              notes := some (if notes = "" then
                "Coccion completada, empezando a empaquetar" else notes) }
          { w with
              steps := mapLast (fun s =>
                if s.status = "cooking" ∧ s.completed_at = none then
                  { s with completed_at := some ts,
                           notes := if notes = "" then s.notes else some notes }
                else s) w.steps ++ [step],
              current_status := "packing", updated_at := ts })
        match w1 with
        | none => ⟨some o', none, staff, [], .ok "packing"⟩
        | some w2 =>
          match w2.cooking_task_token with
          | none => ⟨some o', some w2, staff, [], .ok "packing"⟩
          | some t =>
            if resume_ok t then
              ⟨some o',
                some { w2 with cooking_task_token := none,
                               cooking_wait_started_at := none },
                staff, [t], .ok "packing"⟩
            else
              ⟨some o', some w2, staff, [], .ok "packing"⟩

/-- Embeds `complete_packing` (services/chef/handler.py, lines 298-446): the
chef marks packing done, the order becomes `ready`, the ledger gets a closed
`ready` step owned by `system`, and the chef's availability record is flipped
back to `available` with `current_order_id` cleared and `orders_completed`
incremented.  Then the stored `packing_task_token`, if any, is resumed and
cleared on success. -/
def chef_complete_packing (user_type chef_ident notes : String)
    (order : Option Order) (wf : Option Workflow) (staff : List StaffRec)
    (resume_ok : String → Bool) (ts : Nat) : OpResult :=
  if user_type ∉ (["chef", "staff", "admin"] : List String) then
    ⟨order, wf, staff, [], .err (.unauthorized "Solo chefs pueden completar empaquetado")⟩
  else
    match order with
    | none => ⟨order, wf, staff, [], .err (.notFound "Pedido no encontrado")⟩
    | some o =>
      if o.assigned_chef ≠ some chef_ident then
        ⟨order, wf, staff, [], .err (.unauthorized "Este pedido no esta asignado a ti")⟩
      else if o.status ≠ "packing" then
        ⟨order, wf, staff, [], .err (.validation "El pedido debe estar en estado packing")⟩
      else
        let o' := { o with status := "ready", ready_at := some ts, packed_at := some ts,
                           updated_at := ts, updated_by := some chef_ident }
        let w1 := wf.map (fun w =>
          let step : Step :=
            { status := "ready", assigned_to := "system", started_at := ts,
              completed_at := some ts,
              notes := some (if notes = "" then
                "Empaquetado y listo para recoger por repartidor" else notes) }
          { w with
              steps := mapLast (fun s =>
                if s.status = "packing" ∧ s.completed_at = none then
                  { s with completed_at := some ts,
                           notes := if notes = "" then s.notes else some notes }
                else s) w.steps ++ [step],
              current_status := "ready", updated_at := ts })
        let staff' := staff.map (fun r =>
          if r.staff_id = chef_ident then
            { r with status := "available", current_order_id := none,
                     orders_completed := r.orders_completed + 1, updated_at := ts }
          else r)
        match w1 with
        | none => ⟨some o', none, staff', [], .ok "ready"⟩
        | some w2 =>
          match w2.packing_task_token with
          | none => ⟨some o', some w2, staff', [], .ok "ready"⟩
          | some t =>
            if resume_ok t then
              ⟨some o',
                some { w2 with packing_task_token := none,
                               packing_wait_started_at := none },
                staff', [t], .ok "ready"⟩
            else
              ⟨some o', some w2, staff', [], .ok "ready"⟩

/-- Embeds `pickup_order` (services/driver/manual_operations.py, lines 21-127):
a driver claims a `ready` order, which becomes `in_delivery` with
`assigned_driver` set; the ledger closes an open `ready` last step and appends
an open `in_delivery` step. -/
def pickup_order (driver_ident order_id : String)
    (order : Option Order) (wf : Option Workflow) (staff : List StaffRec)
    (ts : Nat) : OpResult :=
  match order with
  | none => ⟨order, wf, staff, [], .err (.notFound "Pedido no encontrado")⟩
  | some o =>
    if o.status ≠ "ready" then
      ⟨order, wf, staff, [], .err (.validation "El pedido no esta disponible para recoger")⟩
    else
      let o' := { o with status := "in_delivery", assigned_driver := some driver_ident,
                         pickup_time := some ts, updated_at := ts,
                         updated_by := some driver_ident }
      let w0 : Workflow :=
        match wf with
        | some w => w
        | none =>
          { order_id := order_id, current_status := "", steps := [], updated_at := 0,
            confirmation_task_token := none, confirmation_wait_started_at := none,
            cooking_task_token := none, cooking_wait_started_at := none,
            packing_task_token := none, packing_wait_started_at := none }
      let step : Step :=
        { status := "in_delivery", assigned_to := driver_ident, started_at := ts,
          completed_at := none, notes := some "Pedido recogido" }
      let w' := { w0 with
        steps := mapLast (fun s =>
          if s.status = "ready" ∧ s.completed_at = none then
            { s with completed_at := some ts } else s) w0.steps ++ [step],
        current_status := "in_delivery", updated_at := ts }
      ⟨some o', some w', staff, [], .ok "in_delivery"⟩

/-- Embeds `complete_order` (services/driver/manual_operations.py, lines
130-237): the assigned driver marks the order delivered.  The ledger's last
step is closed if it is an open `in_delivery` step and `current_status`
becomes `delivered`.  Note that no staff availability record is touched, and
that a missing workflow record makes the handler crash (500) after the order
record was already updated, because `workflow['current_status']` is assigned
outside the `if workflow` guard. -/
def driver_complete_order (driver_ident notes : String)
    (order : Option Order) (wf : Option Workflow) (staff : List StaffRec)
    (ts : Nat) : OpResult :=
  match order with
  | none => ⟨order, wf, staff, [], .err (.notFound "Pedido no encontrado")⟩
  | some o =>
    if o.assigned_driver ≠ some driver_ident then
      ⟨order, wf, staff, [], .err (.unauthorized "Solo el driver asignado puede completar la entrega")⟩
    else if o.status ≠ "in_delivery" then
      ⟨order, wf, staff, [], .err (.validation "El pedido no esta en entrega")⟩
    else
      let o' := { o with status := "delivered", delivered_at := some ts, updated_at := ts,
                         updated_by := some driver_ident,
                         delivery_notes := some (if notes = "" then
                           "Entrega completada" else notes) }
      match wf with
      | none =>
        ⟨some o', none, staff, [], .err (.internal "Error interno del servidor")⟩
      | some w =>
        let w' := { w with
          steps := mapLast (fun s =>
            if s.status = "in_delivery" ∧ s.completed_at = none then
              { s with completed_at := some ts,
                       notes := if notes = "" then s.notes else some notes }
            else s) w.steps,
          current_status := "delivered", updated_at := ts }
        ⟨some o', some w', staff, [], .ok "delivered"⟩

/-- Embeds `cancel_pickup` (services/driver/manual_operations.py, lines
240-346): the assigned driver cancels an in-progress pickup.  The order goes
back to `ready` with `assigned_driver` and `pickup_time` cleared, the ledger's
last `in_delivery` step is closed at `ts` with the cancellation reason, and a
new open `ready` step owned by `system` is appended. -/
def cancel_pickup (driver_ident reason : String)
    (order : Option Order) (wf : Option Workflow) (staff : List StaffRec)
    (ts : Nat) : OpResult :=
  match order with
  | none => ⟨order, wf, staff, [], .err (.notFound "Pedido no encontrado")⟩
  | some o =>
    if o.assigned_driver ≠ some driver_ident then
      ⟨order, wf, staff, [], .err (.unauthorized "Este pedido esta asignado a otro driver")⟩
    else if o.status ≠ "in_delivery" then
      ⟨order, wf, staff, [], .err (.validation "El pedido no esta en entrega")⟩
    else
      let o' := { o with status := "ready", assigned_driver := none, pickup_time := none,
                         updated_at := ts, updated_by := some driver_ident,
                         cancellation_reason := some reason }
      match wf with
      | none =>
        ⟨some o', none, staff, [], .err (.internal "Error interno del servidor")⟩
      | some w =>
        let step : Step :=
          { status := "ready", assigned_to := "system", started_at := ts,
            completed_at := none,
            notes := some ("Regresado a disponible. Razon: " ++ reason) }
        let closed :=
          if w.steps = [] then w.steps
          else mapLast (fun s =>
            if s.status = "in_delivery" then
              { s with completed_at := some ts,
                       notes := some ("Cancelado por " ++ driver_ident ++ ". Razon: " ++ reason) }
            else s) w.steps ++ [step]
        let w' := { w with steps := closed, current_status := "ready", updated_at := ts }
        ⟨some o', some w', staff, [], .ok "ready"⟩

/-- Embeds `confirm_order_manual` (services/workflow/token_management.py,
lines 89-179): admin/staff confirm an order waiting on its confirmation
token.  An ABSENT token raises `ValidationError`.  The order record is
updated to `confirmed` BEFORE the resume primitive is invoked; if the resume
call fails (stale token) the handler re-raises, so the request fails with a
500 and the workflow record (with its steps and its still-stored token) is
never written back, while the order keeps the new status. -/
def confirm_order_manual (user_type user_id : String)
    (order : Option Order) (wf : Option Workflow) (staff : List StaffRec)
    (resume_ok : String → Bool) (ts : Nat) : OpResult :=
  if user_type ∉ (["admin", "staff"] : List String) then
    ⟨order, wf, staff, [],
      .err (.unauthorized "Solo admin y staff pueden confirmar pedidos manualmente")⟩
  else
    match wf with
    | none => ⟨order, wf, staff, [], .err (.notFound "Workflow no encontrado")⟩
    | some w =>
      match w.confirmation_task_token with
      | none =>
        ⟨order, wf, staff, [],
          .err (.validation "No hay token de confirmacion activo para este pedido")⟩
      | some t =>
        match order with
        | none => ⟨order, wf, staff, [], .err (.notFound "Pedido no encontrado")⟩
        | some o =>
          let o' := { o with status := "confirmed", updated_at := ts,
                             updated_by := some user_id }
          let step : Step :=
            { status := "confirmed", assigned_to := user_id, started_at := ts,
              completed_at := some ts, notes := some "Confirmado manualmente" }
          let wmem := { w with
            steps := mapLast (fun s =>
              if s.status = "pending" ∧ s.completed_at = none then
                { s with completed_at := some ts } else s) w.steps ++ [step],
            current_status := "confirmed", updated_at := ts }
          if resume_ok t then
            ⟨some o',
              some { wmem with confirmation_task_token := none,
                               confirmation_wait_started_at := none },
              staff, [t], .ok "confirmed"⟩
          else
            ⟨some o', some w, staff, [], .err (.internal "Error al confirmar pedido")⟩

/-- Embeds `create_order` (services/orders/handler.py, lines 32-197) up to its
persisted effects: validate the request, compute `total` as the exact sum of
`quantity * price` over the items, store the `pending` order and initialise
its workflow ledger with a single open `pending` step. -/
def create_order (user_id : Option String) (user_email : Option String)
    (items : List OrderItem) (delivery_address delivery_instructions : String)
    (tenant_id order_id : String) (ts : Nat) : OpResult :=
  match user_id with
  | none => ⟨none, none, [], [], .err (.validation "No se pudo identificar al usuario")⟩
  | some uid =>
    if items = [] then
      ⟨none, none, [], [], .err (.validation "items es requerido y no puede estar vacio")⟩
    else if delivery_address = "" then
      ⟨none, none, [], [], .err (.validation "delivery_address es requerido")⟩
    else if ¬ items.all (fun i => decide (0 < i.quantity) && decide (0 < i.price)) then
      ⟨none, none, [], [], .err (.validation "quantity y price deben ser positivos")⟩
    else
      let total : Rat := (items.map (fun i => i.quantity * i.price)).sum
      let o : Order :=
        { order_id := order_id, tenant_id := tenant_id, customer_id := uid,
          customer_email := user_email.getD (uid ++ "@200millas.com"),
          items := items, total := total, delivery_address := delivery_address,
          delivery_instructions := delivery_instructions, status := "pending",
          assigned_chef := none, assigned_driver := none,
          created_at := ts, updated_at := ts, updated_by := none,
          assigned_at := none, pickup_time := none, ready_at := none,
          packed_at := none, delivered_at := none, delivery_notes := none,
          cancellation_reason := none }
      let w : Workflow :=
        { order_id := order_id, current_status := "pending",
          steps := [{ status := "pending", assigned_to := "system",
                      started_at := ts, completed_at := none, notes := none }],
          updated_at := ts,
          confirmation_task_token := none, confirmation_wait_started_at := none,
          cooking_task_token := none, cooking_wait_started_at := none,
          packing_task_token := none, packing_wait_started_at := none }
      ⟨some o, some w, [], [], .ok "pending"⟩

/-- A user record of the USERS_TABLE, as consulted by `get_user_type`. -/
structure UserRec where
  email : String
  user_type : Option String
  deriving Repr, DecidableEq

/-- The places `get_user_type` (shared/utils.py, lines 256-377) looks for a
user type or an email, in its fallback order. -/
structure AuthEvent where
  enhanced_user_type : Option String
  enhanced_email : Option String
  ctx_user_type : Option String
  ctx_email : Option String
  auth_user_type : Option String
  event_user_type : Option String
  principal_id : Option String
  deriving Repr, DecidableEq

/-- Look up a user record by exact email and return its `user_type` if the
record exists and carries one (`if user: if user_type: return`). -/
def lookup_type_by_email (users : List UserRec) (m : String) : Option String :=
  match users.find? (fun u => u.email == m) with
  | some u => u.user_type
  | none => none

/-- The scan fallback of `get_user_type`: the first user whose email's local
part equals the principal id and that carries a `user_type`. -/
def lookup_type_by_principal (users : List UserRec) (p : String) : Option String :=
  match users.find? (fun u =>
    u.email ≠ "" && (u.email.splitOn "@").headD "" == p && u.user_type.isSome) with
  | some u => u.user_type
  | none => none

/-- The whole database phase of `get_user_type`: lookup by the authorizer
email, then by the two constructed emails for the principal id, then the scan. -/
def user_type_from_db (users : List UserRec) (e : AuthEvent)
    (tenant_env : String) : Option String :=
  let email_from_auth :=
    match e.enhanced_email with
    | some m => some m
    | none => e.ctx_email
  if e.principal_id.isNone && email_from_auth.isNone then none
  else
    let by_email :=
      match email_from_auth with
      | some m => lookup_type_by_email users m
      | none => none
    match by_email with
    | some t => some t
    | none =>
      match e.principal_id with
      | none => none
      | some p =>
        match lookup_type_by_email users (p ++ "@" ++ tenant_env ++ ".com") with
        | some t => some t
        | none =>
          match lookup_type_by_email users (p ++ "@200millas.com") with
          | some t => some t
          | none => lookup_type_by_principal users p

/-- Embeds `get_user_type` (shared/utils.py, lines 256-377): try
`enhancedAuthContext`, the authorizer context, the authorizer, the raw event,
then the user database; when nothing resolves, default to `'customer'`. -/
def get_user_type (e : AuthEvent) (users : List UserRec)
    (tenant_env : String) : String :=
  match e.enhanced_user_type with
  | some t => t
  | none =>
    match e.ctx_user_type with
    | some t => t
    | none =>
      match e.auth_user_type with
      | some t => t
      | none =>
        match e.event_user_type with
        | some t => t
        | none =>
          match user_type_from_db users e tenant_env with
          | some t => t
          | none => "customer"

/-- The role dispatch of `get_orders` (services/orders/handler.py, lines
204-305): which branch a resolved user type selects. -/
inductive OrdersBranch where
  | customer | chefStaff | admin | driverRedirect | rejected
  deriving Repr, DecidableEq

/-- Embeds the `if/elif` chain over `user_type` in `get_orders`. -/
def get_orders_branch (user_type : String) : OrdersBranch :=
  if user_type = "customer" then .customer
  else if user_type = "chef" ∨ user_type = "staff" then .chefStaff
  else if user_type = "admin" then .admin
  else if user_type = "driver" then .driverRedirect
  else .rejected

/-! ### Concrete sample states used by counterexamples and witnesses -/

/-- A freshly created order, as `create_order` stores it. -/
def sampleOrder : Order :=
  { order_id := "o-1", tenant_id := "200millas", customer_id := "cust-1",
    customer_email := "cust-1@200millas.com", items := [], total := 0,
    delivery_address := "Av Principal 123", delivery_instructions := "",
    status := "pending", assigned_chef := none, assigned_driver := none,
    created_at := 1, updated_at := 1, updated_by := none, assigned_at := none,
    pickup_time := none, ready_at := none, packed_at := none,
    delivered_at := none, delivery_notes := none, cancellation_reason := none }

/-- The matching freshly initialised ledger: one open `pending` step. -/
def sampleWorkflow : Workflow :=
  { order_id := "o-1", current_status := "pending",
    steps := [{ status := "pending", assigned_to := "system", started_at := 1,
                completed_at := none, notes := none }],
    updated_at := 1,
    confirmation_task_token := none, confirmation_wait_started_at := none,
    cooking_task_token := none, cooking_wait_started_at := none,
    packing_task_token := none, packing_wait_started_at := none }

/-- Number of open (not yet completed) ledger steps. -/
def openCount (steps : List Step) : Nat :=
  (steps.filter (fun s => s.completed_at.isNone)).length

/-! ### C1 — transition-table validation -/

/-- C1, counterexample.  The claim says a status-update request for the pair
`pending → ready` fails with `InvalidTransition` and leaves `Order.status`
unchanged.  In the code `update_order_status` has no transition table: the
request succeeds and sets the status to `ready` (and no `InvalidTransition`
error kind even exists in `shared/errors.py`). -/
theorem C1_counterexample :
    (update_order_status "chef" "u1" "ready" ""
        (some sampleOrder) (some sampleWorkflow) [] 5).outcome = Outcome.ok "ready" ∧
    (update_order_status "chef" "u1" "ready" ""
        (some sampleOrder) (some sampleWorkflow) [] 5).order.map Order.status
      = some "ready" ∧
    sampleOrder.status = "pending" := by
  decide

/-- Every member of `valid_statuses` is a nonempty string. -/
theorem valid_status_ne_empty {s : String} (h : s ∈ valid_statuses) : s ≠ "" := by
  intro he; subst he; revert h; decide

/-- Success equation for `update_order_status`: with an authorized role, a
valid target and an existing order, the handler updates the order, rewrites
the ledger (closing the open last step, appending a new open step) and
succeeds. -/
theorem update_order_status_ok (user_type user_id new_status notes : String)
    (o : Order) (wf : Option Workflow) (staff : List StaffRec) (ts : Nat)
    (hrole : user_type ∈ (["chef", "staff", "admin"] : List String))
    (hvalid : new_status ∈ valid_statuses) :
    update_order_status user_type user_id new_status notes (some o) wf staff ts
      = ⟨some { o with status := new_status, updated_at := ts,
                       updated_by := some user_id },
          wf.map (fun w =>
            { w with
                steps := mapLast (closeOpen ts) w.steps ++
                  [{ status := new_status, assigned_to := user_id, started_at := ts,
                     completed_at := none,
                     notes := some (if notes = "" then "Actualizado manualmente"
                       else notes) }],
                current_status := new_status, updated_at := ts }),
          staff, [], .ok new_status⟩ := by
  unfold update_order_status
  rw [if_neg (not_not_intro hrole), if_neg (valid_status_ne_empty hvalid),
    if_neg (not_not_intro hvalid)]

/-- C1, amended.  `update_order_status` validates the requested status only
against the fixed list `valid_statuses`; any listed target is accepted from
any current status (there is no `(current, next)` transition check), and on
success `Order.status` is set to the target. -/
theorem C1_no_transition_check (user_type user_id new_status notes : String)
    (o : Order) (wf : Option Workflow) (staff : List StaffRec) (ts : Nat)
    (hrole : user_type ∈ (["chef", "staff", "admin"] : List String))
    (hvalid : new_status ∈ valid_statuses) :
    (update_order_status user_type user_id new_status notes
        (some o) wf staff ts).outcome = Outcome.ok new_status ∧
    (update_order_status user_type user_id new_status notes
        (some o) wf staff ts).order
      = some { o with status := new_status, updated_at := ts,
                      updated_by := some user_id } := by
  rw [update_order_status_ok user_type user_id new_status notes o wf staff ts
    hrole hvalid]
  exact ⟨rfl, rfl⟩

/-- C1 witness: the amended theorem applied to the `pending → ready` request. -/
theorem C1_no_transition_check_witness :
    (update_order_status "staff" "u2" "ready" ""
        (some sampleOrder) (some sampleWorkflow) [] 5).outcome = Outcome.ok "ready" :=
  (C1_no_transition_check "staff" "u2" "ready" "" sampleOrder
    (some sampleWorkflow) [] 5 (by decide) (by decide)).1

/-! ### C2 — role policy -/

/-- C2, counterexample.  The claim (spec Scenario D) says a chef requesting
the transition to `in_delivery` fails with `Unauthorized`.  In the code the
role gate of `update_order_status` is not per-target: chef/staff/admin may
request any valid status, so the chef's request succeeds and sets the order
to `in_delivery`. -/
theorem C2_counterexample :
    (update_order_status "chef" "u1" "in_delivery" ""
        (some sampleOrder) (some sampleWorkflow) [] 5).outcome
      = Outcome.ok "in_delivery" ∧
    (update_order_status "chef" "u1" "in_delivery" ""
        (some sampleOrder) (some sampleWorkflow) [] 5).order.map Order.status
      = some "in_delivery" := by
  decide

/-- C2, amended.  The role gate of `update_order_status` is coarse: any user
type outside `chef/staff/admin` (in particular the ordering customer and the
courier role `driver`) is rejected with `Unauthorized` for every target, and
the rejection happens before any write, so the order, the ledger and the
staff records are all left unchanged; user types inside the set may request
any valid target stage. -/
theorem C2_coarse_role_gate (user_type user_id new_status notes : String)
    (order : Option Order) (wf : Option Workflow) (staff : List StaffRec) (ts : Nat)
    (hrole : user_type ∉ (["chef", "staff", "admin"] : List String)) :
    (update_order_status user_type user_id new_status notes order wf staff ts)
      = ⟨order, wf, staff, [],
          .err (.unauthorized
            "Solo chef, staff y admin pueden actualizar estados de pedidos")⟩ := by
  unfold update_order_status
  rw [if_pos hrole]

/-- C2 witness: a customer's request is rejected with `Unauthorized` and
mutates nothing. -/
theorem C2_coarse_role_gate_witness :
    (update_order_status "customer" "u3" "confirmed" ""
        (some sampleOrder) (some sampleWorkflow) [] 5)
      = ⟨some sampleOrder, some sampleWorkflow, [], [],
          .err (.unauthorized
            "Solo chef, staff y admin pueden actualizar estados de pedidos")⟩ :=
  C2_coarse_role_gate "customer" "u3" "confirmed" ""
    (some sampleOrder) (some sampleWorkflow) [] 5 (by decide)

/-! ### C3 — at most one open ledger step -/

/-- C3, counterexample.  The claim says every operation that appends a new
step first closes the previously open one.  `update_workflow` does not: one
call on a fresh ledger (one open `pending` step) leaves TWO open steps. -/
theorem C3_counterexample :
    ((update_workflow "o-1" "confirmed" ""
        (some sampleOrder) (some sampleWorkflow) [] 5).wf.map
      (fun w => openCount w.steps)) = some 2 := by
  decide

/-- Applying a function to the last element of `init ++ [last]` leaves `init`
untouched. -/
theorem mapLast_append_singleton (f : Step → Step) (init : List Step) (last : Step) :
    mapLast f (init ++ [last]) = init ++ [f last] := by
  induction init with
  | nil => rfl
  | cons a rest ih =>
    cases h : rest ++ [last] with
    | nil => exact absurd (List.append_eq_nil.mp h).2 (List.cons_ne_nil last [])
    | cons c cs =>
      calc mapLast f ((a :: rest) ++ [last])
          = mapLast f (a :: c :: cs) := by rw [List.cons_append, h]
        _ = a :: mapLast f (c :: cs) := rfl
        _ = a :: mapLast f (rest ++ [last]) := by rw [h]
        _ = a :: (rest ++ [f last]) := by rw [ih]
        _ = (a :: rest) ++ [f last] := rfl

/-- C3, amended.  The manual status update (`update_order_status`) does close
the previously open step, with the same timestamp the new step starts at, so
starting from a ledger whose only open step is the last one it preserves
"at most one step open"; but `update_workflow` appends a new open step without
closing the previous one (see the counterexample), so the invariant does not
hold across all operations. -/
theorem C3_manual_update_closes_previous
    (user_type user_id new_status notes : String) (o : Order) (w : Workflow)
    (staff : List StaffRec) (ts : Nat) (init : List Step) (last : Step)
    (hrole : user_type ∈ (["chef", "staff", "admin"] : List String))
    (hvalid : new_status ∈ valid_statuses)
    (hsteps : w.steps = init ++ [last])
    (hopen : last.completed_at = none)
    (hclosed : ∀ s ∈ init, s.completed_at ≠ none) :
    ∃ w', (update_order_status user_type user_id new_status notes
              (some o) (some w) staff ts).wf = some w' ∧
      w'.steps = init ++ [{ last with completed_at := some ts }] ++
        [{ status := new_status, assigned_to := user_id, started_at := ts,
           completed_at := none,
           notes := some (if notes = "" then "Actualizado manualmente" else notes) }] ∧
      (∀ s ∈ w'.steps.dropLast, s.completed_at ≠ none) := by
  rw [update_order_status_ok user_type user_id new_status notes o (some w)
    staff ts hrole hvalid]
  have hclose : closeOpen ts last = { last with completed_at := some ts } := by
    unfold closeOpen
    rw [if_pos hopen]
  refine ⟨_, rfl, ?_, ?_⟩
  · simp only [hsteps, mapLast_append_singleton, hclose, List.append_assoc]
  · intro s hs
    simp only [hsteps, mapLast_append_singleton, hclose,
      List.dropLast_concat, List.mem_append, List.mem_singleton] at hs
    rcases hs with h1 | h2
    · exact hclosed s h1
    · subst h2
      simp

/-- C3 witness: the amended theorem at a fresh ledger with one open
`pending` step, target `confirmed`. -/
theorem C3_manual_update_closes_previous_witness :
    ∃ w', (update_order_status "admin" "u4" "confirmed" ""
              (some sampleOrder) (some sampleWorkflow) [] 7).wf = some w' ∧
      w'.steps = [] ++ [{ status := "pending", assigned_to := "system",
                          started_at := 1, completed_at := some 7, notes := none }] ++
        [{ status := "confirmed", assigned_to := "u4", started_at := 7,
           completed_at := none, notes := some "Actualizado manualmente" }] ∧
      (∀ s ∈ w'.steps.dropLast, s.completed_at ≠ none) :=
  C3_manual_update_closes_previous "admin" "u4" "confirmed" "" sampleOrder
    sampleWorkflow [] 7 []
    { status := "pending", assigned_to := "system", started_at := 1,
      completed_at := none, notes := none }
    (by decide) (by decide) (by decide) rfl (by simp)

/-! ### C4 — Order.status mirrors WorkflowLedger.current_status -/

/-- After a handler runs, the stored order's status agrees with the stored
ledger's `current_status` (whenever both records exist). -/
def mirrors (r : OpResult) : Prop :=
  ∀ o w, r.order = some o → r.wf = some w → o.status = w.current_status

theorem c4_manual_update (ut uid st nt : String) (ord : Option Order)
    (wf : Option Workflow) (staff : List StaffRec) (ts : Nat) (s : String)
    (h : (update_order_status ut uid st nt ord wf staff ts).outcome = .ok s) :
    mirrors (update_order_status ut uid st nt ord wf staff ts) := by
  revert h
  unfold mirrors
  unfold update_order_status
  cases ord <;> cases wf <;>
    (try simp only [Option.map_some', Option.map_none']) <;>
    (repeat' split) <;>
    intro h o w ho hw <;>
    (try simp_all) <;>
    (try (subst ho; subst hw; rfl))

theorem c4_queue_assignment (order_id tenant_id : String) (ord : Option Order)
    (wf : Option Workflow) (staff : List StaffRec) (ts : Nat) (s : String)
    (h : (process_chef_assignment order_id tenant_id ord wf staff ts).outcome = .ok s) :
    mirrors (process_chef_assignment order_id tenant_id ord wf staff ts) := by
  revert h
  unfold mirrors
  unfold process_chef_assignment
  cases ord <;> cases wf <;>
    (try simp only [Option.map_some', Option.map_none']) <;>
    (repeat' split) <;>
    intro h o w ho hw <;>
    (try simp_all) <;>
    (try (subst ho; subst hw; rfl))

theorem c4_sf_complete_cooking (ord : Option Order) (wf : Option Workflow)
    (staff : List StaffRec) (ts : Nat) (s : String)
    (h : (sf_complete_cooking ord wf staff ts).outcome = .ok s) :
    mirrors (sf_complete_cooking ord wf staff ts) := by
  revert h
  unfold mirrors
  unfold sf_complete_cooking
  cases ord <;> cases wf <;>
    (try simp only [Option.map_some', Option.map_none']) <;>
    (repeat' split) <;>
    intro h o w ho hw <;>
    (try simp_all) <;>
    (try (subst ho; subst hw; rfl))

theorem c4_chef_complete_cooking (ut ci nt : String) (ord : Option Order)
    (wf : Option Workflow) (staff : List StaffRec) (rok : String → Bool)
    (ts : Nat) (s : String)
    (h : (chef_complete_cooking ut ci nt ord wf staff rok ts).outcome = .ok s) :
    mirrors (chef_complete_cooking ut ci nt ord wf staff rok ts) := by
  revert h
  unfold mirrors
  unfold chef_complete_cooking
  cases ord <;> cases wf <;>
    (try simp only [Option.map_some', Option.map_none']) <;>
    (repeat' split) <;>
    intro h o w ho hw <;>
    (try simp_all) <;>
    (try (subst ho; subst hw; rfl))

theorem c4_chef_complete_packing (ut ci nt : String) (ord : Option Order)
    (wf : Option Workflow) (staff : List StaffRec) (rok : String → Bool)
    (ts : Nat) (s : String)
    (h : (chef_complete_packing ut ci nt ord wf staff rok ts).outcome = .ok s) :
    mirrors (chef_complete_packing ut ci nt ord wf staff rok ts) := by
  revert h
  unfold mirrors
  unfold chef_complete_packing
  cases ord <;> cases wf <;>
    (try simp only [Option.map_some', Option.map_none']) <;>
    (repeat' split) <;>
    intro h o w ho hw <;>
    (try simp_all) <;>
    (try (subst ho; subst hw; rfl))

theorem c4_pickup (di oid : String) (ord : Option Order) (wf : Option Workflow)
    (staff : List StaffRec) (ts : Nat) (s : String)
    (h : (pickup_order di oid ord wf staff ts).outcome = .ok s) :
    mirrors (pickup_order di oid ord wf staff ts) := by
  revert h
  unfold mirrors
  unfold pickup_order
  cases ord <;> cases wf <;>
    (try simp only [Option.map_some', Option.map_none']) <;>
    (repeat' split) <;>
    intro h o w ho hw <;>
    (try simp_all) <;>
    (try (subst ho; subst hw; rfl))

theorem c4_driver_complete (di nt : String) (ord : Option Order)
    (wf : Option Workflow) (staff : List StaffRec) (ts : Nat) (s : String)
    (h : (driver_complete_order di nt ord wf staff ts).outcome = .ok s) :
    mirrors (driver_complete_order di nt ord wf staff ts) := by
  revert h
  unfold mirrors
  unfold driver_complete_order
  cases ord <;> cases wf <;>
    (try simp only [Option.map_some', Option.map_none']) <;>
    (repeat' split) <;>
    intro h o w ho hw <;>
    (try simp_all) <;>
    (try (subst ho; subst hw; rfl))

theorem c4_cancel_pickup (di rs : String) (ord : Option Order)
    (wf : Option Workflow) (staff : List StaffRec) (ts : Nat) (s : String)
    (h : (cancel_pickup di rs ord wf staff ts).outcome = .ok s) :
    mirrors (cancel_pickup di rs ord wf staff ts) := by
  revert h
  unfold mirrors
  unfold cancel_pickup
  cases ord <;> cases wf <;>
    (try simp only [Option.map_some', Option.map_none']) <;>
    (repeat' split) <;>
    intro h o w ho hw <;>
    (try simp_all) <;>
    (try (subst ho; subst hw; rfl))

/-- C4: after any successful transition operation — the manual status update,
the queue assignment, chef cooking/packing completion, driver
pickup/complete/cancel, and the Step Functions cooking step — the stored
`Order.status` equals the stored ledger's `current_status`. -/
theorem C4_status_mirror :
    (∀ ut uid st nt ord wf staff ts s,
      (update_order_status ut uid st nt ord wf staff ts).outcome = .ok s →
      mirrors (update_order_status ut uid st nt ord wf staff ts)) ∧
    (∀ oid tid ord wf staff ts s,
      (process_chef_assignment oid tid ord wf staff ts).outcome = .ok s →
      mirrors (process_chef_assignment oid tid ord wf staff ts)) ∧
    (∀ ord wf staff ts s,
      (sf_complete_cooking ord wf staff ts).outcome = .ok s →
      mirrors (sf_complete_cooking ord wf staff ts)) ∧
    (∀ ut ci nt ord wf staff rok ts s,
      (chef_complete_cooking ut ci nt ord wf staff rok ts).outcome = .ok s →
      mirrors (chef_complete_cooking ut ci nt ord wf staff rok ts)) ∧
    (∀ ut ci nt ord wf staff rok ts s,
      (chef_complete_packing ut ci nt ord wf staff rok ts).outcome = .ok s →
      mirrors (chef_complete_packing ut ci nt ord wf staff rok ts)) ∧
    (∀ di oid ord wf staff ts s,
      (pickup_order di oid ord wf staff ts).outcome = .ok s →
      mirrors (pickup_order di oid ord wf staff ts)) ∧
    (∀ di nt ord wf staff ts s,
      (driver_complete_order di nt ord wf staff ts).outcome = .ok s →
      mirrors (driver_complete_order di nt ord wf staff ts)) ∧
    (∀ di rs ord wf staff ts s,
      (cancel_pickup di rs ord wf staff ts).outcome = .ok s →
      mirrors (cancel_pickup di rs ord wf staff ts)) :=
  ⟨c4_manual_update, c4_queue_assignment, c4_sf_complete_cooking,
   c4_chef_complete_cooking, c4_chef_complete_packing, c4_pickup,
   c4_driver_complete, c4_cancel_pickup⟩

/-- C4 witness: a concrete successful driver pickup, with the mirror property
instantiated from the theorem. -/
theorem C4_status_mirror_witness :
    (pickup_order "drv-1" "o-1" (some { sampleOrder with status := "ready" })
        (some sampleWorkflow) [] 9).outcome = Outcome.ok "in_delivery" ∧
    mirrors (pickup_order "drv-1" "o-1" (some { sampleOrder with status := "ready" })
        (some sampleWorkflow) [] 9) :=
  ⟨by decide,
   C4_status_mirror.2.2.2.2.2.1 "drv-1" "o-1"
     (some { sampleOrder with status := "ready" }) (some sampleWorkflow) [] 9
     "in_delivery" (by decide)⟩

/-! ### C5 — task tokens consumed at most once -/

/-- A ledger waiting on its confirmation token. -/
def tokenWf : Workflow :=
  { sampleWorkflow with confirmation_task_token := some "tok-confirm",
                        confirmation_wait_started_at := some 2 }

/-- C5, counterexample.  The claim says a resume attempt with a stale token is
a logged no-op that is not fatal and does not mutate state.  In
`confirm_order_manual`, when the orchestrator rejects the stored token the
handler re-raises: the request fails with a 500, the order record has already
been flipped to `confirmed`, and the workflow (token included) is left as it
was — neither a no-op nor non-fatal. -/
theorem C5_counterexample :
    (confirm_order_manual "admin" "u9" (some sampleOrder) (some tokenWf) []
        (fun _ => false) 7).outcome = Outcome.err (Err.internal "Error al confirmar pedido") ∧
    (confirm_order_manual "admin" "u9" (some sampleOrder) (some tokenWf) []
        (fun _ => false) 7).order.map Order.status = some "confirmed" ∧
    (confirm_order_manual "admin" "u9" (some sampleOrder) (some tokenWf) []
        (fun _ => false) 7).wf = some tokenWf := by
  decide

/-- C5, amended.  In the chef cooking-completion handler the protocol does
hold: (a) a successful resume clears both stored token fields in the same
operation and is reported exactly once; (b) an absent token is a logged
no-op and the request still succeeds; (c) a token the orchestrator rejects
(stale) is caught: the request still succeeds, nothing is resumed, and the
token fields are left untouched; (d) once the order has moved on to
`packing`, a second completion attempt resumes nothing.  In the manual
confirmation endpoint, however, a stale token fails the request after the
order write (see the counterexample) and an absent token fails with
`ValidationError`. -/
theorem C5_token_roundtrip :
    (∀ ut ci nt (o : Order) (w : Workflow) staff (rok : String → Bool) ts t,
      ut ∈ (["chef", "staff", "admin"] : List String) →
      o.assigned_chef = some ci → o.status = "cooking" →
      w.cooking_task_token = some t → rok t = true →
      ∃ w', (chef_complete_cooking ut ci nt (some o) (some w) staff rok ts).wf = some w' ∧
        w'.cooking_task_token = none ∧ w'.cooking_wait_started_at = none ∧
        (chef_complete_cooking ut ci nt (some o) (some w) staff rok ts).resumed = [t] ∧
        (chef_complete_cooking ut ci nt (some o) (some w) staff rok ts).outcome
          = .ok "packing") ∧
    (∀ ut ci nt (o : Order) (w : Workflow) staff (rok : String → Bool) ts,
      ut ∈ (["chef", "staff", "admin"] : List String) →
      o.assigned_chef = some ci → o.status = "cooking" →
      w.cooking_task_token = none →
      (chef_complete_cooking ut ci nt (some o) (some w) staff rok ts).resumed = [] ∧
      (chef_complete_cooking ut ci nt (some o) (some w) staff rok ts).outcome
        = .ok "packing") ∧
    (∀ ut ci nt (o : Order) (w : Workflow) staff (rok : String → Bool) ts t,
      ut ∈ (["chef", "staff", "admin"] : List String) →
      o.assigned_chef = some ci → o.status = "cooking" →
      w.cooking_task_token = some t → rok t = false →
      ∃ w', (chef_complete_cooking ut ci nt (some o) (some w) staff rok ts).wf = some w' ∧
        w'.cooking_task_token = some t ∧
        (chef_complete_cooking ut ci nt (some o) (some w) staff rok ts).resumed = [] ∧
        (chef_complete_cooking ut ci nt (some o) (some w) staff rok ts).outcome
          = .ok "packing") ∧
    (∀ ut ci nt (o : Order) (wf : Option Workflow) staff (rok : String → Bool) ts,
      ut ∈ (["chef", "staff", "admin"] : List String) →
      o.assigned_chef = some ci → o.status = "packing" →
      (chef_complete_cooking ut ci nt (some o) wf staff rok ts).resumed = [] ∧
      (chef_complete_cooking ut ci nt (some o) wf staff rok ts).outcome
        = .err (.validation "El pedido debe estar en estado cooking")) := by
  refine ⟨?_, ?_, ?_, ?_⟩
  · intro ut ci nt o w staff rok ts t hrole hchef hstat htok hrok
    unfold chef_complete_cooking
    repeat' split
    all_goals simp_all
  · intro ut ci nt o w staff rok ts hrole hchef hstat htok
    unfold chef_complete_cooking
    repeat' split
    all_goals simp_all
  · intro ut ci nt o w staff rok ts t hrole hchef hstat htok hrok
    unfold chef_complete_cooking
    repeat' split
    all_goals simp_all
  · intro ut ci nt o wf staff rok ts hrole hchef hstat
    unfold chef_complete_cooking
    repeat' split
    all_goals simp_all

/-- A concrete order being cooked by its assigned chef. -/
def cookingOrder : Order :=
  { sampleOrder with
      status := "cooking"
      assigned_chef := some "chef@200millas.com" }

/-- The matching ledger, waiting on the cooking task token. -/
def cookingWf : Workflow :=
  { sampleWorkflow with
      cooking_task_token := some "tok-cook"
      cooking_wait_started_at := some 3 }

/-- C5 witness: a concrete chef completes cooking while the orchestrator is
waiting; the token is resumed once and cleared. -/
theorem C5_token_roundtrip_witness :
    ∃ w', (chef_complete_cooking "chef" "chef@200millas.com" ""
        (some cookingOrder) (some cookingWf) [] (fun _ => true) 8).wf = some w' ∧
      w'.cooking_task_token = none ∧ w'.cooking_wait_started_at = none ∧
      (chef_complete_cooking "chef" "chef@200millas.com" ""
        (some cookingOrder) (some cookingWf) [] (fun _ => true) 8).resumed
        = ["tok-cook"] ∧
      (chef_complete_cooking "chef" "chef@200millas.com" ""
        (some cookingOrder) (some cookingWf) [] (fun _ => true) 8).outcome
        = .ok "packing" :=
  C5_token_roundtrip.1 "chef" "chef@200millas.com" "" cookingOrder cookingWf
    [] (fun _ => true) 8 "tok-cook" (by decide) (by decide) (by decide)
    (by decide) (by decide)

/-! ### C6 — least-loaded selection -/

/-- An available chef who has completed no orders but reported recently. -/
def chefA : StaffRec :=
  { staff_id := "chef-a", staff_type := "chef", status := "available",
    tenant_id := "200millas", email := some "a@200millas.com",
    current_order_id := none, orders_completed := 0, updated_at := 100,
    assigned_at := none }

/-- An equally loaded available chef who reported earlier (more idle). -/
def chefB : StaffRec :=
  { chefA with staff_id := "chef-b", email := some "b@200millas.com",
               updated_at := 50 }

/-- C6, counterexample.  The claim says ties on the completion counter are
broken by earliest `last_updated` (most idle first).  The code sorts only by
`orders_completed` with a stable sort, so ties are broken by position in the
queried list: with two equally loaded chefs, the one listed first is chosen
even though the other has the earlier `updated_at`. -/
theorem C6_counterexample :
    find_available_chef [chefA, chefB] "200millas" = some chefA ∧
    chefA.orders_completed = chefB.orders_completed ∧
    chefB.updated_at < chefA.updated_at := by
  decide

/-- C6, amended.  The selected chef is an available chef of the tenant with
the smallest `orders_completed` among all such candidates; ties are broken by
position in the queried list (stability of the sort), not by `last_updated`. -/
theorem C6_least_loaded (staff : List StaffRec) (tenant_id : String) (c : StaffRec)
    (h : find_available_chef staff tenant_id = some c) :
    c ∈ (staff.filter (fun x => x.staff_type == "chef")).filter
        (fun x => x.status == "available" && x.tenant_id == tenant_id) ∧
    ∀ x ∈ (staff.filter (fun x => x.staff_type == "chef")).filter
        (fun x => x.status == "available" && x.tenant_id == tenant_id),
      c.orders_completed ≤ x.orders_completed := by
  unfold find_available_chef at h
  cases hs : List.insertionSort byCompleted
      ((staff.filter (fun x => x.staff_type == "chef")).filter
        (fun x => x.status == "available" && x.tenant_id == tenant_id)) with
  | nil => rw [hs] at h; cases h
  | cons c0 rest =>
    rw [hs] at h
    have hc : c0 = c := by injection h
    subst hc
    have hperm := List.perm_insertionSort byCompleted
      ((staff.filter (fun x => x.staff_type == "chef")).filter
        (fun x => x.status == "available" && x.tenant_id == tenant_id))
    rw [hs] at hperm
    have hsort := List.sorted_insertionSort byCompleted
      ((staff.filter (fun x => x.staff_type == "chef")).filter
        (fun x => x.status == "available" && x.tenant_id == tenant_id))
    rw [hs] at hsort
    refine ⟨hperm.mem_iff.mp (List.mem_cons_self c0 rest), ?_⟩
    intro x hx
    have hx' : x ∈ c0 :: rest := hperm.symm.mem_iff.mp hx
    rcases List.mem_cons.mp hx' with hxc | hxr
    · subst hxc; exact Nat.le_refl _
    · exact List.rel_of_sorted_cons hsort x hxr

/-- C6 witness (spec Scenario B): among two available chefs with completion
counts 3 and 7, the one with 3 is selected, and it is minimal. -/
theorem C6_least_loaded_witness :
    { chefA with orders_completed := 3 } ∈
      (([{ chefA with orders_completed := 3 },
          { chefB with orders_completed := 7 }] : List StaffRec).filter
        (fun x => x.staff_type == "chef")).filter
        (fun x => x.status == "available" && x.tenant_id == "200millas") ∧
    ∀ x ∈ (([{ chefA with orders_completed := 3 },
          { chefB with orders_completed := 7 }] : List StaffRec).filter
        (fun x => x.staff_type == "chef")).filter
        (fun x => x.status == "available" && x.tenant_id == "200millas"),
      ({ chefA with orders_completed := 3 } : StaffRec).orders_completed
        ≤ x.orders_completed :=
  C6_least_loaded [{ chefA with orders_completed := 3 },
    { chefB with orders_completed := 7 }] "200millas"
    { chefA with orders_completed := 3 } (by decide)

/-! ### C7 — completion releases staff -/

/-- An order out for delivery, assigned to a concrete driver. -/
def inDeliveryOrder : Order :=
  { sampleOrder with
      status := "in_delivery"
      assigned_driver := some "drv@200millas.com" }

/-- The matching ledger: one open `in_delivery` step. -/
def inDeliveryWf : Workflow :=
  { sampleWorkflow with
      current_status := "in_delivery"
      steps := [{ status := "in_delivery", assigned_to := "drv@200millas.com",
                  started_at := 4, completed_at := none, notes := none }] }

/-- The availability record of that driver, currently busy on the order. -/
def busyDriver : StaffRec :=
  { staff_id := "drv@200millas.com", staff_type := "driver", status := "busy",
    tenant_id := "200millas", email := some "drv@200millas.com",
    current_order_id := some "o-1", orders_completed := 3, updated_at := 40,
    assigned_at := some 30 }

/-- C7, counterexample.  The claim says a courier finishing delivery flips
their StaffAvailabilityRecord back to `available`, clears `current_order_id`
and increments the counter.  `complete_order` never touches the availability
table: the delivery succeeds and the driver's record is exactly as before —
still `busy`, still pointing at the order, counter not incremented. -/
theorem C7_counterexample :
    (driver_complete_order "drv@200millas.com" "" (some inDeliveryOrder)
        (some inDeliveryWf) [busyDriver] 9).outcome = Outcome.ok "delivered" ∧
    (driver_complete_order "drv@200millas.com" "" (some inDeliveryOrder)
        (some inDeliveryWf) [busyDriver] 9).staff = [busyDriver] ∧
    busyDriver.status = "busy" ∧ busyDriver.current_order_id = some "o-1" ∧
    busyDriver.orders_completed = 3 := by
  decide

/-- Mapping a function that fixes every element of a list is the identity. -/
theorem map_id_of_eq {f : StaffRec → StaffRec} {l : List StaffRec}
    (h : ∀ r ∈ l, f r = r) : l.map f = l := by
  induction l with
  | nil => rfl
  | cons a t ih =>
    rw [List.map_cons, h a (List.mem_cons_self a t),
      ih (fun r hr => h r (List.mem_cons_of_mem a hr))]

/-- C7, amended.  A chef finishing packing does release themselves: their
availability record is flipped to `available`, `current_order_id` cleared and
`orders_completed` incremented, while every other record is untouched.  A
courier finishing delivery releases nothing: `complete_order` leaves the
staff availability table unchanged in every case. -/
theorem C7_completion_releases_staff :
    (∀ ut ci nt (o : Order) wf (pre post : List StaffRec) (rec : StaffRec)
        (rok : String → Bool) ts,
      ut ∈ (["chef", "staff", "admin"] : List String) →
      o.assigned_chef = some ci → o.status = "packing" →
      rec.staff_id = ci →
      (∀ r ∈ pre, r.staff_id ≠ ci) → (∀ r ∈ post, r.staff_id ≠ ci) →
      (chef_complete_packing ut ci nt (some o) wf (pre ++ rec :: post) rok ts).staff
        = pre ++ { rec with
            status := "available"
            current_order_id := none
            orders_completed := rec.orders_completed + 1
            updated_at := ts } :: post ∧
      (chef_complete_packing ut ci nt (some o) wf (pre ++ rec :: post) rok ts).outcome
        = .ok "ready") ∧
    (∀ di nt ord wf staff ts,
      (driver_complete_order di nt ord wf staff ts).staff = staff) := by
  constructor
  · intro ut ci nt o wf pre post rec rok ts hrole hchef hstat hid hpre hpost
    have hmap : (pre ++ rec :: post).map
        (fun r => if r.staff_id = ci then
          { r with
              status := "available"
              current_order_id := none
              orders_completed := r.orders_completed + 1
              updated_at := ts }
          else r)
        = pre ++ { rec with
            status := "available"
            current_order_id := none
            orders_completed := rec.orders_completed + 1
            updated_at := ts } :: post := by
      rw [List.map_append, List.map_cons, if_pos hid,
        map_id_of_eq (fun r hr => if_neg (hpre r hr)),
        map_id_of_eq (fun r hr => if_neg (hpost r hr))]
    unfold chef_complete_packing
    cases wf <;>
      (try simp only [Option.map_some', Option.map_none']) <;>
      (repeat' split) <;>
      simp_all
  · intro di nt ord wf staff ts
    unfold driver_complete_order
    cases ord <;> cases wf <;> (repeat' split) <;> rfl

/-- A concrete order being packed by chef-a. -/
def packingOrder : Order :=
  { sampleOrder with
      status := "packing"
      assigned_chef := some "chef-a" }

/-- Chef-a's availability record while busy on that order, 3 completed. -/
def busyChef : StaffRec :=
  { chefA with
      orders_completed := 3
      status := "busy"
      current_order_id := some "o-1" }

/-- C7 witness: a concrete chef (3 completed orders) finishes packing and is
released: available again, no current order, counter now 4 — the second half
of spec Scenario B. -/
theorem C7_completion_releases_staff_witness :
    (chef_complete_packing "chef" "chef-a" ""
        (some packingOrder) (some sampleWorkflow)
        ([] ++ busyChef :: [])
        (fun _ => true) 9).staff
      = [] ++ { busyChef with
          status := "available"
          current_order_id := none
          orders_completed := busyChef.orders_completed + 1
          updated_at := 9 } :: [] :=
  (C7_completion_releases_staff.1 "chef" "chef-a" ""
    packingOrder (some sampleWorkflow) [] [] busyChef
    (fun _ => true) 9 (by decide) (by decide) (by decide) (by decide)
    (by intro r hr; cases hr) (by intro r hr; cases hr)).1

/-! ### C8 — cancel pickup is a compensating transition -/

/-- C8: when the assigned courier cancels an in-progress pickup, the order
returns to `ready` with `assigned_driver` (and `pickup_time`) cleared, the
ledger's `in_delivery` last step is closed at the cancellation time with a
note carrying the reason, a new open `ready` step owned by `system` is
appended, and the stored order is again in the state (`status = "ready"`)
that makes it selectable for re-assignment. -/
theorem C8_cancel_pickup_compensates (d reason : String) (o : Order) (w : Workflow)
    (staff : List StaffRec) (ts : Nat) (init : List Step) (last : Step)
    (hdrv : o.assigned_driver = some d) (hstat : o.status = "in_delivery")
    (hsteps : w.steps = init ++ [last]) (hlast : last.status = "in_delivery") :
    (cancel_pickup d reason (some o) (some w) staff ts)
      = ⟨some { o with
            status := "ready"
            assigned_driver := none
            pickup_time := none
            updated_at := ts
            updated_by := some d
            cancellation_reason := some reason },
          some { w with
            steps := init ++ [{ last with
                completed_at := some ts
                notes := some ("Cancelado por " ++ d ++ ". Razon: " ++ reason) }] ++
              [{ status := "ready", assigned_to := "system", started_at := ts,
                 completed_at := none,
                 notes := some ("Regresado a disponible. Razon: " ++ reason) }]
            current_status := "ready"
            updated_at := ts },
          staff, [], .ok "ready"⟩ ∧
    (cancel_pickup d reason (some o) (some w) staff ts).order.map Order.status
      = some "ready" := by
  unfold cancel_pickup
  repeat' split
  all_goals simp_all [mapLast_append_singleton]

/-- C8 witness: the concrete in-delivery order from above, cancelled with a
reason; it returns to `ready`. -/
theorem C8_cancel_pickup_compensates_witness :
    (cancel_pickup "drv@200millas.com" "Cliente no responde"
        (some inDeliveryOrder) (some inDeliveryWf) [] 9).order.map Order.status
      = some "ready" :=
  (C8_cancel_pickup_compensates "drv@200millas.com" "Cliente no responde"
    inDeliveryOrder inDeliveryWf [] 9 []
    { status := "in_delivery", assigned_to := "drv@200millas.com",
      started_at := 4, completed_at := none, notes := none }
    (by decide) (by decide) rfl (by decide)).2

/-! ### C9 — order creation total and status -/

/-- C9: a valid create-order request stores an order whose `total` is the
exact sum of `quantity * price` over the line items, with status `pending`,
and initialises the ledger at `pending`. -/
theorem C9_create_order_total (uid : String) (ue : Option String)
    (items : List OrderItem) (addr instr tid oid : String) (ts : Nat)
    (hitems : items ≠ []) (haddr : addr ≠ "")
    (hpos : ∀ i ∈ items, 0 < i.quantity ∧ 0 < i.price) :
    ∃ o, (create_order (some uid) ue items addr instr tid oid ts).order = some o ∧
      o.status = "pending" ∧
      o.total = (items.map (fun i => i.quantity * i.price)).sum ∧
      (create_order (some uid) ue items addr instr tid oid ts).outcome
        = .ok "pending" ∧
      (create_order (some uid) ue items addr instr tid oid ts).wf.map
        Workflow.current_status = some "pending" := by
  have hall : items.all (fun i => decide (0 < i.quantity) && decide (0 < i.price))
      = true := by
    rw [List.all_eq_true]
    intro i hi
    rw [Bool.and_eq_true, decide_eq_true_eq, decide_eq_true_eq]
    exact hpos i hi
  unfold create_order
  repeat' split
  all_goals simp_all

/-- The two line items of spec Scenario A: qty 2 at 10.00 and qty 1 at 5.00. -/
def scenarioItems : List OrderItem :=
  [{ item_id := "i-1", name := "Combo", quantity := 2, price := 10 },
   { item_id := "i-2", name := "Extra", quantity := 1, price := 5 }]

/-- C9 witness (spec Scenario A): the created order's total is exactly 25.00
and its status is `pending`. -/
theorem C9_create_order_total_witness :
    ∃ o, (create_order (some "cust-1") (some "cust-1@200millas.com")
        scenarioItems "Av Principal 123" "" "200millas" "o-9" 3).order = some o ∧
      o.status = "pending" ∧ o.total = 25 := by
  obtain ⟨o, h1, h2, h3, _, _⟩ :=
    C9_create_order_total "cust-1" (some "cust-1@200millas.com") scenarioItems
      "Av Principal 123" "" "200millas" "o-9" 3
      (by intro h; exact absurd h (by decide))
      (by intro h; exact absurd h (by decide))
      (by
        intro i hi
        rcases List.mem_cons.mp hi with h | h
        · subst h; constructor <;> norm_num
        · rcases List.mem_cons.mp h with h2 | h2
          · subst h2; constructor <;> norm_num
          · cases h2)
  refine ⟨o, h1, h2, ?_⟩
  rw [h3]
  norm_num [scenarioItems]

/-! ### C10 — unresolved user type defaults to customer -/

/-- C10: when no user type can be resolved from the authorizer context, the
event itself, or the user-database phase, `get_user_type` returns
`'customer'`, and the role dispatch of `get_orders` consequently treats the
caller as the ordering customer instead of rejecting the request. -/
theorem C10_default_customer (e : AuthEvent) (users : List UserRec)
    (tenant_env : String)
    (h1 : e.enhanced_user_type = none) (h2 : e.ctx_user_type = none)
    (h3 : e.auth_user_type = none) (h4 : e.event_user_type = none)
    (h5 : user_type_from_db users e tenant_env = none) :
    get_user_type e users tenant_env = "customer" ∧
    get_orders_branch (get_user_type e users tenant_env) = OrdersBranch.customer := by
  unfold get_user_type
  rw [h1, h2, h3, h4, h5]
  exact ⟨rfl, by decide⟩

/-- A request event carrying no user type anywhere and no identity to look up. -/
def anonEvent : AuthEvent :=
  { enhanced_user_type := none, enhanced_email := none, ctx_user_type := none,
    ctx_email := none, auth_user_type := none, event_user_type := none,
    principal_id := none }

/-- C10 witness: a fully anonymous event resolves to `customer` and
`get_orders` takes the customer branch for it (it is not rejected). -/
theorem C10_default_customer_witness :
    get_user_type anonEvent [] "200millas" = "customer" ∧
    get_orders_branch (get_user_type anonEvent [] "200millas")
      = OrdersBranch.customer :=
  C10_default_customer anonEvent [] "200millas" rfl rfl rfl rfl (by decide)

end Millas
